import Mathlib

/-!
Shallow embedding of the lunar-year lookup engine in src/lunar.py.

Python strings are modelled as Lean strings (lists of code points); the
Python dictionaries built by LunarYear._get_year are modelled as
association lists; the two-element Python lists [localized_name, hanja]
stored in the table are modelled as pairs (localized_name, hanja).
Python exceptions raised by the engine are modelled by the LunarError
type together with Except.
-/

set_option maxRecDepth 20000

/-- Whitespace test used by the Python str.strip method (ASCII part;
the embedded data and the inputs of interest contain no exotic
whitespace). -/
def isPySpace (c : Char) : Bool :=
  c = ' ' || c = '\t' || c = '\n' || c = '\r' || c = '\x0b' || c = '\x0c'

/-- Model of the Python str.strip method: remove leading and trailing
whitespace. -/
def pyStrip (s : String) : String :=
  String.mk (((s.data.dropWhile isPySpace).reverse.dropWhile isPySpace).reverse)

/-- Split a list of characters at every occurrence of the separator,
keeping empty groups, as the Python str.split method does when given an
explicit separator. -/
def splitOnChar (sep : Char) : List Char → List (List Char)
  | [] => [[]]
  | c :: cs =>
    let r := splitOnChar sep cs
    if c = sep then [] :: r
    else match r with
      | [] => [[c]]
      | g :: gs => (c :: g) :: gs

/-- Model of the Python str.split method with a one-character separator. -/
def pySplit (sep : Char) (s : String) : List String :=
  (splitOnChar sep s.data).map String.mk

/-- True when the character list is nonempty and all characters are
decimal digits. -/
def isDigits (cs : List Char) : Bool :=
  !cs.isEmpty && cs.all (·.isDigit)

/-- Numeric value of a big-endian list of decimal digit characters. -/
def digitsVal (cs : List Char) : Nat :=
  cs.foldl (fun n c => n * 10 + (c.toNat - 48)) 0

/-- Model of the Python builtin int applied to a string: strip
whitespace, allow one optional sign, then require a nonempty run of
decimal digits.  (The Python builtin additionally accepts underscore
digit separators and non-ASCII digits; no input relevant to this
development uses those.)  Returns none where the builtin raises
ValueError. -/
def pyIntChars : List Char → Option Int
  | [] => none
  | c :: rest =>
    if c = '+' then (if isDigits rest then some ((digitsVal rest : Nat) : Int) else none)
    else if c = '-' then (if isDigits rest then some (-((digitsVal rest : Nat) : Int)) else none)
    else if isDigits (c :: rest) then some ((digitsVal (c :: rest) : Nat) : Int) else none

/-- Parsing of the whole (stripped) string. -/
def pyStrToInt (s : String) : Option Int :=
  pyIntChars (pyStrip s).data

/-- Model of the Python builtin int applied to a float: truncation
toward zero.  The float argument is modelled by the exact rational value
it denotes (NaN and infinities, on which the builtin raises, are not
modelled). -/
def ratTrunc (q : ℚ) : Int :=
  q.num.tdiv (q.den : Int)

/-- Value stored in the table for one cycle position: an association
list from language code to the (localized_name, logogram) pair, the
model of the inner Python dict of two-element lists. -/
abbrev Entry := List (String × String × String)

/-- Embedded table literal of LunarYear._get_year, reproduced verbatim
from the source (sixty tab-separated rows, indented as in the Python
triple-quoted string, with the trailing indentation of the closing
quotes). -/
def tableLiteral : String := "        1\t甲子\tjiǎ-zǐ\tgapja 갑자\tkōshi(kasshi)/kinoe-ne\tGiáp Tý\tYang Wood Rat\t4\t57\t1984
        2\t乙丑\tyǐ-chǒu\teulchuk 을축\titchū/kinoto-ushi\tẤt Sửu\tYin Wood Ox\t5\t56\t1985
        3\t丙寅\tbǐng-yín\tbyeongin 병인\theiin/hinoe-tora\tBính Dần\tYang Fire Tiger\t6\t55\t1986
        4\t丁卯\tdīng-mǎo\tjeongmyo 정묘\tteibō/hinoto-u\tĐinh Mão\tYin Fire Rabbit\t7\t54\t1987
        5\t戊辰\twù-chén\tmujin 무진\tboshin/tsuchinoe-tatsu\tMậu Thìn\tYang Earth Dragon\t8\t53\t1988
        6\t己巳\tjǐ-sì\tgisa 기사\tkishi/tsuchinoto-mi\tKỷ Tỵ\tYin Earth Snake\t9\t52\t1989
        7\t庚午\tgēng-wǔ\tgyeongo 경오\tkōgo/kanoe-uma\tCanh Ngọ\tYang Metal Horse\t10\t51\t1990
        8\t辛未\txīn-wèi\tshinmi 신미\tshinbi/kanoto-hitsuji\tTân Mùi\tYin Metal Goat\t11\t50\t1991
        9\t壬申\trén-shēn\timshin 임신\tjinshin/mizunoe-saru\tNhâm Thân\tYang Water Monkey\t12\t49\t1992
        10\t癸酉\tguǐ-yǒu\tgyeyu 계유\tkiyū/mizunoto-tori\tQuý Dậu\tYin Water Rooster\t13\t48\t1993
        11\t甲戌\tjiǎ-xū\tgapsul 갑술\tkōjutsu/kinoe-inu\tGiáp Tuất\tYang Wood Dog\t14\t47\t1994
        12\t乙亥\tyǐ-hài\teulhae 을해\titsugai/kinoto-i\tÂt Hợi\tYin Wood Pig\t15\t46\t1995
        13\t丙子\tbǐng-zǐ\tbyeongja 병자\theishi/hinoe-ne\tBính Tý\tYang Fire Rat\t16\t45\t1996
        14\t丁丑\tdīng-chǒu\tjeongchuk 정축\tteichū/hinoto-ushi\tĐinh Sửu\tYin Fire Ox\t17\t44\t1997
        15\t戊寅\twù-yín\tmuin 무인\tboin/tsuchinoe-tora\tMậu Dần\tYang Earth Tiger\t18\t43\t1998
        16\t己卯\tjǐ-mǎo\tgimyo 기묘\tkibō/tsuchinoto-u\tKỷ Mão\tYin Earth Rabbit\t19\t42\t1999
        17\t庚辰\tgēng-chén\tgyeongjin 경진\tkōshin/kanoe-tatsu\tCanh Thìn\tYang Metal Dragon\t20\t41\t2000
        18\t辛巳\txīn-sì\tshinsa 신사\tshinshi/kanoto-mi\tTân Tỵ\tYin Metal Snake\t21\t40\t2001
        19\t壬午\trén-wǔ\timo 임오\tjingo/mizunoe-uma\tNhâm Ngọ\tYang Water Horse\t22\t39\t2002
        20\t癸未\tguǐ-wèi\tgyemi 계미\tkibi/mizunoto-hitsuji\tQuý Mùi\tYin Water Goat\t23\t38\t2003
        21\t甲申\tjiǎ-shēn\tgapshin 갑신\tkōshin/kinoe-saru\tGiáp Thân\tYang Wood Monkey\t24\t37\t2004
        22\t乙酉\tyǐ-yǒu\teulyu 을유\titsuyū/kinoto-tori\tẤt Dậu\tYin Wood Rooster\t25\t36\t2005
        23\t丙戌\tbǐng-xū\tbyeongsul 병술\theijutsu/hinoe-inu\tBính Tuất\tYang Fire Dog\t26\t35\t2006
        24\t丁亥\tdīng-hài\tjeonghae 정해\tteigai/hinoto-i\tĐinh Hợi\tYin Fire Pig\t27\t34\t2007
        25\t戊子\twù-zǐ\tmuja 무자\tboshi/tsuchinoe-ne\tMậu Tý\tYang Earth Rat\t28\t33\t2008
        26\t己丑\tjǐ-chǒu\tgichuk 기축\tkichū/tsuchinoto-ushi\tKỷ Sửu\tYin Earth Ox\t29\t32\t2009
        27\t庚寅\tgēng-yín\tgyeongin 경인\tkōin/kanoe-tora\tCanh Dần\tYang Metal Tiger\t30\t31\t2010
        28\t辛卯\txīn-mǎo\tshinmyo 신묘\tshinbō/kanoto-u\tTân Mão\tYin Metal Rabbit\t31\t30\t2011
        29\t壬辰\trén-chén\timjin 임진\tjinshin/mizunoe-tatsu\tNhâm Thìn\tYang Water Dragon\t32\t29\t2012
        30\t癸巳\tguǐ-sì\tgyesa 계사\tkishi/mizunoto-mi\tQuý Tỵ\tYin Water Snake\t33\t28\t2013
        31\t甲午\tjiǎ-wǔ\tgapo 갑오\tkōgo/kinoe-uma\tGiáo Ngọ\tYang Wood Horse\t34\t27\t2014
        32\t乙未\tyǐ-wèi\teulmi 을미\titsubi/kinoto-hitsuji\tẤt Mùi\tYin Wood Goat\t35\t26\t2015
        33\t丙申\tbǐng-shēn\tbyeongshin 병신\theishin/hinoe-saru\tBính Thân\tYang Fire Monkey\t36\t25\t2016
        34\t丁酉\tdīng-yǒu\tjeongyu 정유\tteiyū/hinoto-tori\tĐinh Dậu\tYin Fire Rooster\t37\t24\t2017
        35\t戊戌\twù-xū\tmusul 무술\tbojutsu/tsuchinoe-inu\tMậu Tuất\tYang Earth Dog\t38\t23\t2018
        36\t己亥\tjǐ-hài\tgihae 기해\tkigai/tsuchinoto-i\tKỷ Hợi\tYin Earth Pig\t39\t22\t2019
        37\t庚子\tgēng-zǐ\tgyeongja 경자\tkōshi/kanoe-ne\tCanh Tý\tYang Metal Rat\t40\t21\t2020
        38\t辛丑\txīn-chǒu\tshinchuk 신축\tshinchū/kanoto-ushi\tTân Sửu\tYin Metal Ox\t41\t20\t2021
        39\t壬寅\trén-yín\timin 임인\tjin\x27in/mizunoe-tora\tNhâm Dần\tYang Water Tiger\t42\t19\t2022
        40\t癸卯\tguǐ-mǎo\tgyemyo 계묘\tkibō/mizunoto-u\tQuý Mão\tYin Water Rabbit\t43\t18\t2023
        41\t甲辰\tjiǎ-chén\tgapjin 갑진\tkōshin/kinoe-tatsu\tGiáp Thìn\tYang Wood Dragon\t44\t17\t2024
        42\t乙巳\tyǐ-sì\teulsa 을사\titsushi/kinoto-mi\tẤt Tỵ\tYin Wood Snake\t45\t16\t2025
        43\t丙午\tbǐng-wǔ\tbyeongo 병오\theigo/hinoe-uma\tBính Ngọ\tYang Fire Horse\t46\t15\t2026
        44\t丁未\tdīng-wèi\tjeongmi 정미\tteibi/hinoto-hitsuji\tĐinh Mùi\tYin Fire Goat\t47\t14\t2027
        45\t戊申\twù-shēn\tmushin 무신\tboshin/tsuchinoe-saru\tMậu Thân\tYang Earth Monkey\t48\t13\t2028
        46\t己酉\tjǐ-yǒu\tgiyu 기유\tkiyū/tsuchinoto-tori\tKỷ Dậu\tYin Earth Rooster\t49\t12\t2029
        47\t庚戌\tgēng-xū\tgyeongsul 경술\tkōjutsu/kanoe-inu\tCanh Tuất\tYang Metal Dog\t50\t11\t2030
        48\t辛亥\txīn-hài\tshinhae 신해\tshingai/kanoto-i\tTân Hợi\tYin Metal Pig\t51\t10\t2031
        49\t壬子\trén-zǐ\timja 임자\tjinshi/mizunoe-ne\tNhâm Tý\tYang Water Rat\t52\t9\t2032
        50\t癸丑\tguǐ-chǒu\tgyechuk 계축\tkichū/mizunoto-ushi\tQuý Sửu\tYin Water Ox\t53\t8\t2033
        51\t甲寅\tjiǎ-yín\tgapin 갑인\tkōin/kinoe-tora\tGiáp Dần\tYang Wood Tiger\t54\t7\t2034
        52\t乙卯\tyǐ-mǎo\teulmyo 을묘\titsubō/kinoto-u\tẤt Mão\tYin Wood Rabbit\t55\t6\t2035
        53\t丙辰\tbǐng-chén\tbyeongjin 병진\theishin/hinoe-tatsu\tBính Thìn\tYang Fire Dragon\t56\t5\t2036
        54\t丁巳\tdīng-sì\tjeongsa 정사\tteishi/hinoto-mi\tĐinh Tỵ\tYin Fire Snake\t57\t4\t2037
        55\t戊午\twù-wǔ\tmuo 무오\tbogo/tsuchinoe-uma\tMậu Ngọ\tYang Earth Horse\t58\t3\t2038
        56\t己未\tjǐ-wèi\tgimi 기미\tkibi/tsuchinoto-hitsuji\tKỷ Mùi\tYin Earth Goat\t59\t2\t2039
        57\t庚申\tgēng-shēn\tgyeongshin 경신\tkōshin/kanoe-saru\tCanh Thân\tYang Metal Monkey\t60\t1\t2040
        58\t辛酉\txīn-yǒu\tshinyu 신유\tshin\x27yū/kanoto-tori\tTân Dậu\tYin Metal Rooster\t1\t60\t2041
        59\t壬戌\trén-xū\timsul 임술\tjinjutsu/mizunoe-inu\tNhâm Tuất\tYang Water Dog\t2\t59\t2042
        60\t癸亥\tguǐ-hài\tgyehae 계해\tkigai/mizunoto-i\tQuý Hợi\tYin Water Pig\t3\t58\t2043
        "

/-- Parse one row of the table, as one loop iteration of
LunarYear._get_year does: strip the line, split on tabs, read the
leading integer position, and build the per-language entry sharing the
hanja column.  Returns none where the Python loop silently skips the
row (non-integer leading field or too few columns). -/
def parseRow (line : String) : Option (Int × Entry) :=
  match pySplit '\t' (pyStrip line) with
  | p0 :: p1 :: p2 :: p3 :: p4 :: p5 :: p6 :: _ =>
    (match pyStrToInt p0 with
     | some k => some (k, [("chi", p2, p1), ("kor", p3, p1), ("jap", p4, p1),
                           ("viet", p5, p1), ("eng", p6, p1)])
     | none => none)
  | _ => none

/-- Model of LunarYear._get_year: strip the embedded literal, split it
into lines, and parse each line, skipping unparsable ones. -/
def getYear : List (Int × Entry) :=
  (pySplit '\n' (pyStrip tableLiteral)).filterMap parseRow

/-- Model of the class attribute LunarYear._TABLE once built (the build
is idempotent and the parse is deterministic, so every successfully
constructed instance observes this value). -/
def LUNAR_TABLE : List (Int × Entry) := getYear

/-- Model of LunarYear.MIN_YEAR. -/
def MIN_YEAR : Int := 4

/-- Model of LunarYear.MAX_YEAR. -/
def MAX_YEAR : Int := 9999

/-- Model of LunarYear.SUPPORTED_LANGUAGES.  The Python value is a set;
membership is the only operation applied to it apart from sorting, so a
list models it faithfully. -/
def SUPPORTED_LANGUAGES : List String := ["chi", "kor", "jap", "viet", "eng"]

/-- Lexicographic code-point comparison of character lists, the Python
comparison on strings. -/
def charListLt : List Char → List Char → Bool
  | [], [] => false
  | [], _ :: _ => true
  | _ :: _, [] => false
  | a :: as, b :: bs => if a = b then charListLt as bs else decide (a < b)

/-- Insert a string into a sorted list of strings. -/
def insSorted (x : String) : List String → List String
  | [] => [x]
  | y :: ys => if charListLt y.data x.data then y :: insSorted x ys else x :: y :: ys

/-- Model of the Python builtin sorted on a collection of strings. -/
def pySorted (l : List String) : List String :=
  l.foldr insSorted []

/-- Model of the Python str.join method. -/
def pyJoin (sep : String) : List String → String
  | [] => ""
  | [x] => x
  | x :: xs => x ++ sep ++ pyJoin sep xs

/-- Apostrophe character, written with an escape. -/
def apos : String := "\x27"

/-- Message of the TypeError raised by LunarYear.__init__ when the
builtin int raises on its argument; tn is the Python type name of the
original argument. -/
def formatMsg (tn : String) : String :=
  "Year must be an integer, got " ++ tn

/-- Message of the ValueError raised by LunarYear.__init__ on a year
outside the valid range. -/
def rangeMsg (y : Int) : String :=
  "Year must be between " ++ toString MIN_YEAR ++ " and " ++ toString MAX_YEAR ++
    ", got " ++ toString y

/-- Message of the ValueError raised by LunarYear.lang on an
unsupported language code. -/
def unsupportedMsg (code : String) : String :=
  "Language " ++ apos ++ code ++ apos ++ " not supported. Choose from: " ++
    pyJoin ", " (pySorted SUPPORTED_LANGUAGES)

/-- Exceptions the engine can raise, tagged with their Python class and
carrying the formatted message where one is built. -/
inductive LunarError where
  /-- TypeError raised by LunarYear.__init__ when coercion fails. -/
  | invalidYearFormat (msg : String)
  /-- ValueError raised by LunarYear.__init__ on an out-of-range year. -/
  | yearOutOfRange (msg : String)
  /-- ValueError raised by LunarYear.lang on an unknown language code. -/
  | unsupportedLanguage (msg : String)
  /-- KeyError raised by indexing a Python dict with a missing key. -/
  | keyError
  /-- TypeError raised by subscripting None (table not yet built). -/
  | noneTypeError
deriving DecidableEq, Repr

/-- Input accepted by LunarYear.__init__: an integer, a string, or a
float (modelled by the exact rational value the float denotes). -/
inductive YearInput where
  | int (n : Int)
  | str (s : String)
  | float (q : ℚ)

/-- Python type name of the input, as used in the TypeError message. -/
def typeName : YearInput → String
  | .int _ => "int"
  | .str _ => "str"
  | .float _ => "float"

/-- Model of the coercion int(gregorian_year) in LunarYear.__init__:
none where the builtin raises ValueError or TypeError. -/
def coerceYear : YearInput → Option Int
  | .int n => some n
  | .str s => pyStrToInt s
  | .float q => some (ratTrunc q)

/-- Model of a constructed LunarYear instance: its two instance
attributes. -/
structure LunarYear where
  gregorian_year : Int
  year_in_cycle : Int
deriving DecidableEq, Repr

/-- Model of LunarYear.__init__ (the resolve operation of the spec):
coerce, range-check, then store the year and its cycle position.  The
Int modulo used here is the Euclidean one, matching the Python operator
percent on a positive divisor. -/
def resolve (input : YearInput) : Except LunarError LunarYear :=
  match coerceYear input with
  | none => .error (.invalidYearFormat (formatMsg (typeName input)))
  | some y =>
    if MIN_YEAR ≤ y ∧ y ≤ MAX_YEAR then
      .ok ⟨y, (y - 4) % 60 + 1⟩
    else
      .error (.yearOutOfRange (rangeMsg y))

/-- Body of LunarYear.lang against an explicit table and position: the
language-code membership check, then the double dict lookup
table[position][code], whose missing-key failures are KeyError. -/
def langAt (table : List (Int × Entry)) (position : Int) (code : String) :
    Except LunarError (String × String) :=
  if SUPPORTED_LANGUAGES.contains code then
    match table.lookup position with
    | none => .error .keyError
    | some e =>
      match e.lookup code with
      | none => .error .keyError
      | some v => .ok v
  else .error (.unsupportedLanguage (unsupportedMsg code))

/-- Model of LunarYear.lang on a constructed instance: the table read
is the built class table. -/
def lang (ly : LunarYear) (code : String) : Except LunarError (String × String) :=
  langAt LUNAR_TABLE ly.year_in_cycle code

/-- Mutable class-level state of LunarYear: the _TABLE attribute, None
until first construction. -/
structure ClassState where
  table : Option (List (Int × Entry))
deriving DecidableEq

/-- State-passing model of LunarYear.__init__: on success the table is
built if it was still None; on failure the state is untouched. -/
def resolveS (st : ClassState) (input : YearInput) :
    Except LunarError LunarYear × ClassState :=
  match coerceYear input with
  | none => (.error (.invalidYearFormat (formatMsg (typeName input))), st)
  | some y =>
    if MIN_YEAR ≤ y ∧ y ≤ MAX_YEAR then
      (.ok ⟨y, (y - 4) % 60 + 1⟩, ⟨some (st.table.getD getYear)⟩)
    else
      (.error (.yearOutOfRange (rangeMsg y)), st)

/-- State-passing model of LunarYear.lang: the method reads the class
table and the instance attributes and assigns neither, so it returns
both alongside its result.  Subscripting a still-unbuilt table (None)
is the TypeError of the Python runtime. -/
def langS (st : ClassState) (ly : LunarYear) (code : String) :
    Except LunarError (String × String) × ClassState × LunarYear :=
  if SUPPORTED_LANGUAGES.contains code then
    match st.table with
    | none => (.error .noneTypeError, st, ly)
    | some t =>
      ((match t.lookup ly.year_in_cycle with
        | none => .error .keyError
        | some e =>
          match e.lookup code with
          | none => .error .keyError
          | some v => .ok v), st, ly)
  else (.error (.unsupportedLanguage (unsupportedMsg code)), st, ly)

/-- Run a sequence of lang calls on one instance, threading the class
state and the instance through each call. -/
def runLangCalls (st : ClassState) (ly : LunarYear) : List String → ClassState × LunarYear
  | [] => (st, ly)
  | c :: cs =>
    let r := langS st ly c
    runLangCalls r.2.1 r.2.2 cs

/-- Little-endian base-ten digits of a natural number, computed with
explicit fuel so that the kernel can evaluate it; agrees with
Nat.digits 10 when the fuel is at least the number (proved below). -/
def digitsRevAux : Nat → Nat → List Nat
  | _, 0 => []
  | 0, _ + 1 => []
  | fuel + 1, n + 1 => ((n + 1) % 10) :: digitsRevAux fuel ((n + 1) / 10)

/-- Little-endian base-ten digits of a natural number. -/
def digitsRev (n : Nat) : List Nat :=
  digitsRevAux n n

/-- Decimal digit characters of a natural number, most significant
first. -/
def natDecimalChars (n : Nat) : List Char :=
  (digitsRev n).reverse.map (fun d => Char.ofNat (48 + d))

/-- Decimal text representation of an integer. -/
def decimalRepr (y : Int) : String :=
  if y = 0 then "0"
  else if y < 0 then String.mk ('-' :: natDecimalChars y.natAbs)
  else String.mk (natDecimalChars y.natAbs)

/-- Result of evaluating getYear, written out entry by entry so that
proofs can rewrite with getYear_eq and then compute on a literal. -/
def explicitTable : List (Int × Entry) :=
  [(1,
  [("chi", "jiǎ-zǐ", "甲子"),
   ("kor", "gapja 갑자", "甲子"),
   ("jap", "kōshi(kasshi)/kinoe-ne", "甲子"),
   ("viet", "Giáp Tý", "甲子"),
   ("eng", "Yang Wood Rat", "甲子")]),
 (2,
  [("chi", "yǐ-chǒu", "乙丑"),
   ("kor", "eulchuk 을축", "乙丑"),
   ("jap", "itchū/kinoto-ushi", "乙丑"),
   ("viet", "Ất Sửu", "乙丑"),
   ("eng", "Yin Wood Ox", "乙丑")]),
 (3,
  [("chi", "bǐng-yín", "丙寅"),
   ("kor", "byeongin 병인", "丙寅"),
   ("jap", "heiin/hinoe-tora", "丙寅"),
   ("viet", "Bính Dần", "丙寅"),
   ("eng", "Yang Fire Tiger", "丙寅")]),
 (4,
  [("chi", "dīng-mǎo", "丁卯"),
   ("kor", "jeongmyo 정묘", "丁卯"),
   ("jap", "teibō/hinoto-u", "丁卯"),
   ("viet", "Đinh Mão", "丁卯"),
   ("eng", "Yin Fire Rabbit", "丁卯")]),
 (5,
  [("chi", "wù-chén", "戊辰"),
   ("kor", "mujin 무진", "戊辰"),
   ("jap", "boshin/tsuchinoe-tatsu", "戊辰"),
   ("viet", "Mậu Thìn", "戊辰"),
   ("eng", "Yang Earth Dragon", "戊辰")]),
 (6,
  [("chi", "jǐ-sì", "己巳"),
   ("kor", "gisa 기사", "己巳"),
   ("jap", "kishi/tsuchinoto-mi", "己巳"),
   ("viet", "Kỷ Tỵ", "己巳"),
   ("eng", "Yin Earth Snake", "己巳")]),
 (7,
  [("chi", "gēng-wǔ", "庚午"),
   ("kor", "gyeongo 경오", "庚午"),
   ("jap", "kōgo/kanoe-uma", "庚午"),
   ("viet", "Canh Ngọ", "庚午"),
   ("eng", "Yang Metal Horse", "庚午")]),
 (8,
  [("chi", "xīn-wèi", "辛未"),
   ("kor", "shinmi 신미", "辛未"),
   ("jap", "shinbi/kanoto-hitsuji", "辛未"),
   ("viet", "Tân Mùi", "辛未"),
   ("eng", "Yin Metal Goat", "辛未")]),
 (9,
  [("chi", "rén-shēn", "壬申"),
   ("kor", "imshin 임신", "壬申"),
   ("jap", "jinshin/mizunoe-saru", "壬申"),
   ("viet", "Nhâm Thân", "壬申"),
   ("eng", "Yang Water Monkey", "壬申")]),
 (10,
  [("chi", "guǐ-yǒu", "癸酉"),
   ("kor", "gyeyu 계유", "癸酉"),
   ("jap", "kiyū/mizunoto-tori", "癸酉"),
   ("viet", "Quý Dậu", "癸酉"),
   ("eng", "Yin Water Rooster", "癸酉")]),
 (11,
  [("chi", "jiǎ-xū", "甲戌"),
   ("kor", "gapsul 갑술", "甲戌"),
   ("jap", "kōjutsu/kinoe-inu", "甲戌"),
   ("viet", "Giáp Tuất", "甲戌"),
   ("eng", "Yang Wood Dog", "甲戌")]),
 (12,
  [("chi", "yǐ-hài", "乙亥"),
   ("kor", "eulhae 을해", "乙亥"),
   ("jap", "itsugai/kinoto-i", "乙亥"),
   ("viet", "Ât Hợi", "乙亥"),
   ("eng", "Yin Wood Pig", "乙亥")]),
 (13,
  [("chi", "bǐng-zǐ", "丙子"),
   ("kor", "byeongja 병자", "丙子"),
   ("jap", "heishi/hinoe-ne", "丙子"),
   ("viet", "Bính Tý", "丙子"),
   ("eng", "Yang Fire Rat", "丙子")]),
 (14,
  [("chi", "dīng-chǒu", "丁丑"),
   ("kor", "jeongchuk 정축", "丁丑"),
   ("jap", "teichū/hinoto-ushi", "丁丑"),
   ("viet", "Đinh Sửu", "丁丑"),
   ("eng", "Yin Fire Ox", "丁丑")]),
 (15,
  [("chi", "wù-yín", "戊寅"),
   ("kor", "muin 무인", "戊寅"),
   ("jap", "boin/tsuchinoe-tora", "戊寅"),
   ("viet", "Mậu Dần", "戊寅"),
   ("eng", "Yang Earth Tiger", "戊寅")]),
 (16,
  [("chi", "jǐ-mǎo", "己卯"),
   ("kor", "gimyo 기묘", "己卯"),
   ("jap", "kibō/tsuchinoto-u", "己卯"),
   ("viet", "Kỷ Mão", "己卯"),
   ("eng", "Yin Earth Rabbit", "己卯")]),
 (17,
  [("chi", "gēng-chén", "庚辰"),
   ("kor", "gyeongjin 경진", "庚辰"),
   ("jap", "kōshin/kanoe-tatsu", "庚辰"),
   ("viet", "Canh Thìn", "庚辰"),
   ("eng", "Yang Metal Dragon", "庚辰")]),
 (18,
  [("chi", "xīn-sì", "辛巳"),
   ("kor", "shinsa 신사", "辛巳"),
   ("jap", "shinshi/kanoto-mi", "辛巳"),
   ("viet", "Tân Tỵ", "辛巳"),
   ("eng", "Yin Metal Snake", "辛巳")]),
 (19,
  [("chi", "rén-wǔ", "壬午"),
   ("kor", "imo 임오", "壬午"),
   ("jap", "jingo/mizunoe-uma", "壬午"),
   ("viet", "Nhâm Ngọ", "壬午"),
   ("eng", "Yang Water Horse", "壬午")]),
 (20,
  [("chi", "guǐ-wèi", "癸未"),
   ("kor", "gyemi 계미", "癸未"),
   ("jap", "kibi/mizunoto-hitsuji", "癸未"),
   ("viet", "Quý Mùi", "癸未"),
   ("eng", "Yin Water Goat", "癸未")]),
 (21,
  [("chi", "jiǎ-shēn", "甲申"),
   ("kor", "gapshin 갑신", "甲申"),
   ("jap", "kōshin/kinoe-saru", "甲申"),
   ("viet", "Giáp Thân", "甲申"),
   ("eng", "Yang Wood Monkey", "甲申")]),
 (22,
  [("chi", "yǐ-yǒu", "乙酉"),
   ("kor", "eulyu 을유", "乙酉"),
   ("jap", "itsuyū/kinoto-tori", "乙酉"),
   ("viet", "Ất Dậu", "乙酉"),
   ("eng", "Yin Wood Rooster", "乙酉")]),
 (23,
  [("chi", "bǐng-xū", "丙戌"),
   ("kor", "byeongsul 병술", "丙戌"),
   ("jap", "heijutsu/hinoe-inu", "丙戌"),
   ("viet", "Bính Tuất", "丙戌"),
   ("eng", "Yang Fire Dog", "丙戌")]),
 (24,
  [("chi", "dīng-hài", "丁亥"),
   ("kor", "jeonghae 정해", "丁亥"),
   ("jap", "teigai/hinoto-i", "丁亥"),
   ("viet", "Đinh Hợi", "丁亥"),
   ("eng", "Yin Fire Pig", "丁亥")]),
 (25,
  [("chi", "wù-zǐ", "戊子"),
   ("kor", "muja 무자", "戊子"),
   ("jap", "boshi/tsuchinoe-ne", "戊子"),
   ("viet", "Mậu Tý", "戊子"),
   ("eng", "Yang Earth Rat", "戊子")]),
 (26,
  [("chi", "jǐ-chǒu", "己丑"),
   ("kor", "gichuk 기축", "己丑"),
   ("jap", "kichū/tsuchinoto-ushi", "己丑"),
   ("viet", "Kỷ Sửu", "己丑"),
   ("eng", "Yin Earth Ox", "己丑")]),
 (27,
  [("chi", "gēng-yín", "庚寅"),
   ("kor", "gyeongin 경인", "庚寅"),
   ("jap", "kōin/kanoe-tora", "庚寅"),
   ("viet", "Canh Dần", "庚寅"),
   ("eng", "Yang Metal Tiger", "庚寅")]),
 (28,
  [("chi", "xīn-mǎo", "辛卯"),
   ("kor", "shinmyo 신묘", "辛卯"),
   ("jap", "shinbō/kanoto-u", "辛卯"),
   ("viet", "Tân Mão", "辛卯"),
   ("eng", "Yin Metal Rabbit", "辛卯")]),
 (29,
  [("chi", "rén-chén", "壬辰"),
   ("kor", "imjin 임진", "壬辰"),
   ("jap", "jinshin/mizunoe-tatsu", "壬辰"),
   ("viet", "Nhâm Thìn", "壬辰"),
   ("eng", "Yang Water Dragon", "壬辰")]),
 (30,
  [("chi", "guǐ-sì", "癸巳"),
   ("kor", "gyesa 계사", "癸巳"),
   ("jap", "kishi/mizunoto-mi", "癸巳"),
   ("viet", "Quý Tỵ", "癸巳"),
   ("eng", "Yin Water Snake", "癸巳")]),
 (31,
  [("chi", "jiǎ-wǔ", "甲午"),
   ("kor", "gapo 갑오", "甲午"),
   ("jap", "kōgo/kinoe-uma", "甲午"),
   ("viet", "Giáo Ngọ", "甲午"),
   ("eng", "Yang Wood Horse", "甲午")]),
 (32,
  [("chi", "yǐ-wèi", "乙未"),
   ("kor", "eulmi 을미", "乙未"),
   ("jap", "itsubi/kinoto-hitsuji", "乙未"),
   ("viet", "Ất Mùi", "乙未"),
   ("eng", "Yin Wood Goat", "乙未")]),
 (33,
  [("chi", "bǐng-shēn", "丙申"),
   ("kor", "byeongshin 병신", "丙申"),
   ("jap", "heishin/hinoe-saru", "丙申"),
   ("viet", "Bính Thân", "丙申"),
   ("eng", "Yang Fire Monkey", "丙申")]),
 (34,
  [("chi", "dīng-yǒu", "丁酉"),
   ("kor", "jeongyu 정유", "丁酉"),
   ("jap", "teiyū/hinoto-tori", "丁酉"),
   ("viet", "Đinh Dậu", "丁酉"),
   ("eng", "Yin Fire Rooster", "丁酉")]),
 (35,
  [("chi", "wù-xū", "戊戌"),
   ("kor", "musul 무술", "戊戌"),
   ("jap", "bojutsu/tsuchinoe-inu", "戊戌"),
   ("viet", "Mậu Tuất", "戊戌"),
   ("eng", "Yang Earth Dog", "戊戌")]),
 (36,
  [("chi", "jǐ-hài", "己亥"),
   ("kor", "gihae 기해", "己亥"),
   ("jap", "kigai/tsuchinoto-i", "己亥"),
   ("viet", "Kỷ Hợi", "己亥"),
   ("eng", "Yin Earth Pig", "己亥")]),
 (37,
  [("chi", "gēng-zǐ", "庚子"),
   ("kor", "gyeongja 경자", "庚子"),
   ("jap", "kōshi/kanoe-ne", "庚子"),
   ("viet", "Canh Tý", "庚子"),
   ("eng", "Yang Metal Rat", "庚子")]),
 (38,
  [("chi", "xīn-chǒu", "辛丑"),
   ("kor", "shinchuk 신축", "辛丑"),
   ("jap", "shinchū/kanoto-ushi", "辛丑"),
   ("viet", "Tân Sửu", "辛丑"),
   ("eng", "Yin Metal Ox", "辛丑")]),
 (39,
  [("chi", "rén-yín", "壬寅"),
   ("kor", "imin 임인", "壬寅"),
   ("jap", "jin\x27in/mizunoe-tora", "壬寅"),
   ("viet", "Nhâm Dần", "壬寅"),
   ("eng", "Yang Water Tiger", "壬寅")]),
 (40,
  [("chi", "guǐ-mǎo", "癸卯"),
   ("kor", "gyemyo 계묘", "癸卯"),
   ("jap", "kibō/mizunoto-u", "癸卯"),
   ("viet", "Quý Mão", "癸卯"),
   ("eng", "Yin Water Rabbit", "癸卯")]),
 (41,
  [("chi", "jiǎ-chén", "甲辰"),
   ("kor", "gapjin 갑진", "甲辰"),
   ("jap", "kōshin/kinoe-tatsu", "甲辰"),
   ("viet", "Giáp Thìn", "甲辰"),
   ("eng", "Yang Wood Dragon", "甲辰")]),
 (42,
  [("chi", "yǐ-sì", "乙巳"),
   ("kor", "eulsa 을사", "乙巳"),
   ("jap", "itsushi/kinoto-mi", "乙巳"),
   ("viet", "Ất Tỵ", "乙巳"),
   ("eng", "Yin Wood Snake", "乙巳")]),
 (43,
  [("chi", "bǐng-wǔ", "丙午"),
   ("kor", "byeongo 병오", "丙午"),
   ("jap", "heigo/hinoe-uma", "丙午"),
   ("viet", "Bính Ngọ", "丙午"),
   ("eng", "Yang Fire Horse", "丙午")]),
 (44,
  [("chi", "dīng-wèi", "丁未"),
   ("kor", "jeongmi 정미", "丁未"),
   ("jap", "teibi/hinoto-hitsuji", "丁未"),
   ("viet", "Đinh Mùi", "丁未"),
   ("eng", "Yin Fire Goat", "丁未")]),
 (45,
  [("chi", "wù-shēn", "戊申"),
   ("kor", "mushin 무신", "戊申"),
   ("jap", "boshin/tsuchinoe-saru", "戊申"),
   ("viet", "Mậu Thân", "戊申"),
   ("eng", "Yang Earth Monkey", "戊申")]),
 (46,
  [("chi", "jǐ-yǒu", "己酉"),
   ("kor", "giyu 기유", "己酉"),
   ("jap", "kiyū/tsuchinoto-tori", "己酉"),
   ("viet", "Kỷ Dậu", "己酉"),
   ("eng", "Yin Earth Rooster", "己酉")]),
 (47,
  [("chi", "gēng-xū", "庚戌"),
   ("kor", "gyeongsul 경술", "庚戌"),
   ("jap", "kōjutsu/kanoe-inu", "庚戌"),
   ("viet", "Canh Tuất", "庚戌"),
   ("eng", "Yang Metal Dog", "庚戌")]),
 (48,
  [("chi", "xīn-hài", "辛亥"),
   ("kor", "shinhae 신해", "辛亥"),
   ("jap", "shingai/kanoto-i", "辛亥"),
   ("viet", "Tân Hợi", "辛亥"),
   ("eng", "Yin Metal Pig", "辛亥")]),
 (49,
  [("chi", "rén-zǐ", "壬子"),
   ("kor", "imja 임자", "壬子"),
   ("jap", "jinshi/mizunoe-ne", "壬子"),
   ("viet", "Nhâm Tý", "壬子"),
   ("eng", "Yang Water Rat", "壬子")]),
 (50,
  [("chi", "guǐ-chǒu", "癸丑"),
   ("kor", "gyechuk 계축", "癸丑"),
   ("jap", "kichū/mizunoto-ushi", "癸丑"),
   ("viet", "Quý Sửu", "癸丑"),
   ("eng", "Yin Water Ox", "癸丑")]),
 (51,
  [("chi", "jiǎ-yín", "甲寅"),
   ("kor", "gapin 갑인", "甲寅"),
   ("jap", "kōin/kinoe-tora", "甲寅"),
   ("viet", "Giáp Dần", "甲寅"),
   ("eng", "Yang Wood Tiger", "甲寅")]),
 (52,
  [("chi", "yǐ-mǎo", "乙卯"),
   ("kor", "eulmyo 을묘", "乙卯"),
   ("jap", "itsubō/kinoto-u", "乙卯"),
   ("viet", "Ất Mão", "乙卯"),
   ("eng", "Yin Wood Rabbit", "乙卯")]),
 (53,
  [("chi", "bǐng-chén", "丙辰"),
   ("kor", "byeongjin 병진", "丙辰"),
   ("jap", "heishin/hinoe-tatsu", "丙辰"),
   ("viet", "Bính Thìn", "丙辰"),
   ("eng", "Yang Fire Dragon", "丙辰")]),
 (54,
  [("chi", "dīng-sì", "丁巳"),
   ("kor", "jeongsa 정사", "丁巳"),
   ("jap", "teishi/hinoto-mi", "丁巳"),
   ("viet", "Đinh Tỵ", "丁巳"),
   ("eng", "Yin Fire Snake", "丁巳")]),
 (55,
  [("chi", "wù-wǔ", "戊午"),
   ("kor", "muo 무오", "戊午"),
   ("jap", "bogo/tsuchinoe-uma", "戊午"),
   ("viet", "Mậu Ngọ", "戊午"),
   ("eng", "Yang Earth Horse", "戊午")]),
 (56,
  [("chi", "jǐ-wèi", "己未"),
   ("kor", "gimi 기미", "己未"),
   ("jap", "kibi/tsuchinoto-hitsuji", "己未"),
   ("viet", "Kỷ Mùi", "己未"),
   ("eng", "Yin Earth Goat", "己未")]),
 (57,
  [("chi", "gēng-shēn", "庚申"),
   ("kor", "gyeongshin 경신", "庚申"),
   ("jap", "kōshin/kanoe-saru", "庚申"),
   ("viet", "Canh Thân", "庚申"),
   ("eng", "Yang Metal Monkey", "庚申")]),
 (58,
  [("chi", "xīn-yǒu", "辛酉"),
   ("kor", "shinyu 신유", "辛酉"),
   ("jap", "shin\x27yū/kanoto-tori", "辛酉"),
   ("viet", "Tân Dậu", "辛酉"),
   ("eng", "Yin Metal Rooster", "辛酉")]),
 (59,
  [("chi", "rén-xū", "壬戌"),
   ("kor", "imsul 임술", "壬戌"),
   ("jap", "jinjutsu/mizunoe-inu", "壬戌"),
   ("viet", "Nhâm Tuất", "壬戌"),
   ("eng", "Yang Water Dog", "壬戌")]),
 (60,
  [("chi", "guǐ-hài", "癸亥"),
   ("kor", "gyehae 계해", "癸亥"),
   ("jap", "kigai/mizunoto-i", "癸亥"),
   ("viet", "Quý Hợi", "癸亥"),
   ("eng", "Yin Water Pig", "癸亥")])]

theorem getYear_eq : getYear = explicitTable := by rfl


theorem LUNAR_TABLE_eq : LUNAR_TABLE = explicitTable := getYear_eq

theorem sortedLangs_eq :
    pySorted SUPPORTED_LANGUAGES = ["chi", "eng", "jap", "kor", "viet"] := rfl

theorem resolve_int_eq_ok (y : Int) (h1 : 4 ≤ y) (h2 : y ≤ 9999) :
    resolve (.int y) = .ok ⟨y, (y - 4) % 60 + 1⟩ := by
  have hc : MIN_YEAR ≤ y ∧ y ≤ MAX_YEAR := ⟨h1, h2⟩
  simp [resolve, coerceYear, hc]

theorem resolve_int_eq_err (y : Int) (h : y < 4 ∨ 9999 < y) :
    resolve (.int y) = .error (.yearOutOfRange (rangeMsg y)) := by
  have hc : ¬(MIN_YEAR ≤ y ∧ y ≤ MAX_YEAR) := by
    simp only [MIN_YEAR, MAX_YEAR, not_and, not_le]
    omega
  simp [resolve, coerceYear, hc]

theorem lookup_mem {α β : Type} [BEq α] [LawfulBEq α] (a : α) (b : β) :
    ∀ l : List (α × β), l.lookup a = some b → (a, b) ∈ l := by
  intro l
  induction l with
  | nil => intro h; simp [List.lookup] at h
  | cons p es ih =>
    obtain ⟨k, v⟩ := p
    intro h
    cases hk : a == k with
    | true =>
      have ha : a = k := eq_of_beq hk
      have hv : v = b := by simpa [List.lookup, hk] using h
      subst ha; subst hv
      exact List.mem_cons_self _ _
    | false =>
      have h2 : es.lookup a = some b := by simpa [List.lookup, hk] using h
      exact List.mem_cons_of_mem _ (ih h2)

theorem lookup_eq_none_of_not_mem {α β : Type} [BEq α] [LawfulBEq α] (a : α) :
    ∀ l : List (α × β), a ∉ l.map Prod.fst → l.lookup a = none := by
  intro l
  induction l with
  | nil => intro _; rfl
  | cons p es ih =>
    obtain ⟨k, v⟩ := p
    intro h
    simp only [List.map_cons, List.mem_cons] at h
    push_neg at h
    have hk : (a == k) = false := beq_eq_false_iff_ne.mpr h.1
    simpa [List.lookup, hk] using ih h.2

theorem explicitTable_keys :
    explicitTable.map Prod.fst = (List.range 60).map (fun n : Nat => (n : Int) + 1) := by decide

theorem explicitTable_lookup_isSome (p : Int) (h1 : 1 ≤ p) (h2 : p ≤ 60) :
    (explicitTable.lookup p).isSome := by
  interval_cases p <;> decide

theorem explicitTable_entry_keys :
    ∀ pe ∈ explicitTable, pe.2.map Prod.fst = ["chi", "kor", "jap", "viet", "eng"] := by decide

theorem explicitTable_entry_langs :
    ∀ pe ∈ explicitTable, ∀ c ∈ SUPPORTED_LANGUAGES, (pe.2.lookup c).isSome := by decide

theorem explicitTable_logogram :
    ∀ pe ∈ explicitTable, ∀ v ∈ pe.2, ∀ w ∈ pe.2, v.2.2 = w.2.2 := by decide

theorem table_lookup_ok (p : Int) (h1 : 1 ≤ p) (h2 : p ≤ 60) (code : String)
    (hc : code ∈ SUPPORTED_LANGUAGES) :
    ∃ e v, explicitTable.lookup p = some e ∧ e.lookup code = some v ∧
      langAt explicitTable p code = .ok v := by
  have hs : (explicitTable.lookup p).isSome := explicitTable_lookup_isSome p h1 h2
  obtain ⟨e, he⟩ := Option.isSome_iff_exists.mp hs
  have hpe : (p, e) ∈ explicitTable := lookup_mem _ _ _ he
  have hev : (e.lookup code).isSome := explicitTable_entry_langs _ hpe _ hc
  obtain ⟨v, hv⟩ := Option.isSome_iff_exists.mp hev
  refine ⟨e, v, he, hv, ?_⟩
  have hcont : SUPPORTED_LANGUAGES.contains code = true := by
    simpa [List.contains] using hc
  simp [langAt, hcont, he, hv, hc]

theorem table_lookup_none (p : Int) (h : p < 1 ∨ 60 < p) :
    explicitTable.lookup p = none := by
  apply lookup_eq_none_of_not_mem
  rw [explicitTable_keys]
  intro hmem
  simp only [List.mem_map, List.mem_range] at hmem
  obtain ⟨i, hi, hip⟩ := hmem
  omega

/-- Claim C1: for every integer y with 4 <= y <= 9999, constructing a
resolver for y succeeds and its cycle position equals
((y - 4) mod 60) + 1, which lies in [1, 60].  The modulo here is the
Euclidean one of the Lean Int type, which agrees with the Python
operator percent on the positive divisor 60 and is non-negative on the
validated range. -/
theorem resolve_in_range_spec (y : Int) (h1 : 4 ≤ y) (h2 : y ≤ 9999) :
    resolve (.int y) = .ok ⟨y, (y - 4) % 60 + 1⟩ ∧
    1 ≤ (y - 4) % 60 + 1 ∧ (y - 4) % 60 + 1 ≤ 60 := by
  refine ⟨resolve_int_eq_ok y h1 h2, ?_, ?_⟩ <;> omega

/-- Witness for C1 at the particular years named by the claim: year 4
has position 1, year 63 has position 60, year 64 has position 1. -/
theorem resolve_in_range_spec_witness :
    resolve (.int 4) = .ok ⟨4, 1⟩ ∧ resolve (.int 63) = .ok ⟨63, 60⟩ ∧
    resolve (.int 64) = .ok ⟨64, 1⟩ := by
  refine ⟨?_, ?_, ?_⟩
  · rw [(resolve_in_range_spec 4 (by norm_num) (by norm_num)).1]; rfl
  · rw [(resolve_in_range_spec 63 (by norm_num) (by norm_num)).1]; rfl
  · rw [(resolve_in_range_spec 64 (by norm_num) (by norm_num)).1]; rfl

/-- Claim C2: the built table has exactly 60 entries, its keys are
exactly 1, 2, ..., 60 in order (hence a contiguous set with no gaps or
duplicates), every entry carries exactly the five language codes chi,
kor, jap, viet, eng (each mapped to a (localized_name, logogram) pair
by construction of the Entry type), and within one entry the logogram
component is the same string for all five languages. -/
theorem table_invariants_spec :
    LUNAR_TABLE.length = 60 ∧
    LUNAR_TABLE.map Prod.fst = (List.range 60).map (fun n : Nat => (n : Int) + 1) ∧
    (∀ pe ∈ LUNAR_TABLE, pe.2.map Prod.fst = ["chi", "kor", "jap", "viet", "eng"]) ∧
    ∀ pe ∈ LUNAR_TABLE, ∀ v ∈ pe.2, ∀ w ∈ pe.2, v.2.2 = w.2.2 := by
  rw [LUNAR_TABLE_eq]
  exact ⟨rfl, explicitTable_keys, explicitTable_entry_keys, explicitTable_logogram⟩

/-- Claim C3: the resolver for 2024 (cycle position 41) yields
(jiǎ-chén, 甲辰) for chi and (Yang Wood Dragon, 甲辰) for eng, and the
resolver for 2025 (cycle position 42) yields (Yin Wood Snake, 乙巳) for
eng. -/
theorem known_years_spec :
    resolve (.int 2024) = .ok ⟨2024, 41⟩ ∧
    lang ⟨2024, 41⟩ "chi" = .ok ("jiǎ-chén", "甲辰") ∧
    lang ⟨2024, 41⟩ "eng" = .ok ("Yang Wood Dragon", "甲辰") ∧
    resolve (.int 2025) = .ok ⟨2025, 42⟩ ∧
    lang ⟨2025, 42⟩ "eng" = .ok ("Yin Wood Snake", "乙巳") :=
  ⟨rfl, rfl, rfl, rfl, rfl⟩

/-- Claim C5: for every integer year outside [4, 9999] the resolve
operation fails with YearOutOfRange, and the failure message names the
offending value and both bounds of the valid range. -/
theorem resolve_out_of_range_spec (y : Int) (h : y < 4 ∨ 9999 < y) :
    resolve (.int y) =
      .error (.yearOutOfRange ("Year must be between 4 and 9999, got " ++ toString y)) ∧
    rangeMsg y = "Year must be between 4 and 9999, got " ++ toString y := by
  exact ⟨resolve_int_eq_err y h, rfl⟩

/-- Witness for C5 at the years named by the claim: 3 and 10000. -/
theorem resolve_out_of_range_spec_witness :
    resolve (.int 3) = .error (.yearOutOfRange "Year must be between 4 and 9999, got 3") ∧
    resolve (.int 10000) =
      .error (.yearOutOfRange "Year must be between 4 and 9999, got 10000") := by
  constructor
  · rw [(resolve_out_of_range_spec 3 (by norm_num)).1]; rfl
  · rw [(resolve_out_of_range_spec 10000 (by norm_num)).1]; rfl

/-- Counterexample to C6 as stated: the float 2024.5 (the exact
rational 4049/2) is not an integral number, yet resolve does not fail
with InvalidYearFormat; the builtin int truncates the float, so a
resolver for 2024 is returned. -/
theorem resolve_nonint_counterexample :
    (mkRat 4049 2).den ≠ 1 ∧ (mkRat 4049 2 : ℚ) = 4049 / 2 ∧
    resolve (.float (mkRat 4049 2)) = .ok ⟨2024, 41⟩ :=
  ⟨by decide, by norm_num [Rat.mkRat_eq_div], rfl⟩

/-- Claim C6 as amended: every text input that does not parse as an
integer fails with InvalidYearFormat (the coercion-failure error, whose
message names the Python type str of the input), while a non-integral
numeric (float) input is not rejected by the coercion: it is truncated
toward zero and the resolve operation then behaves exactly as on the
truncated integer. -/
theorem resolve_nonint_amended (s : String) (h : pyStrToInt s = none) :
    resolve (.str s) = .error (.invalidYearFormat "Year must be an integer, got str") ∧
    ∀ q : ℚ, resolve (.float q) = resolve (.int (ratTrunc q)) := by
  constructor
  · simp [resolve, coerceYear, h, formatMsg, typeName]
  · intro q
    rfl

/-- Witness for the amended C6 at the input named by the claim. -/
theorem resolve_nonint_amended_witness :
    resolve (.str "not_a_year") =
      .error (.invalidYearFormat "Year must be an integer, got str") :=
  (resolve_nonint_amended "not_a_year" rfl).1

/-- Claim C7: resolving y and y + 60 (both in the valid range) yields
resolvers with the same cycle position. -/
theorem periodicity_spec (y : Int) (h1 : 4 ≤ y) (h2 : y + 60 ≤ 9999) :
    ∃ a b, resolve (.int y) = .ok a ∧ resolve (.int (y + 60)) = .ok b ∧
      b.year_in_cycle = a.year_in_cycle := by
  refine ⟨_, _, resolve_int_eq_ok y h1 (by omega),
    resolve_int_eq_ok (y + 60) (by omega) h2, ?_⟩
  show (y + 60 - 4) % 60 + 1 = (y - 4) % 60 + 1
  omega

/-- Witness for C7 at the year 2024. -/
theorem periodicity_spec_witness :
    ∃ a b, resolve (.int 2024) = .ok a ∧ resolve (.int 2084) = .ok b ∧
      b.year_in_cycle = a.year_in_cycle := by
  obtain ⟨a, b, ha, hb, hab⟩ := periodicity_spec 2024 (by norm_num) (by norm_num)
  rw [show (2024 : Int) + 60 = 2084 from by norm_num] at hb
  exact ⟨a, b, ha, hb, hab⟩

/-- Claim C4: for a resolver whose cycle position lies in [1, 60] (as
every successfully constructed resolver does), the name lookup lang
succeeds exactly on the five case-sensitive codes chi, kor, jap, viet,
eng, returning the pair stored in the table for this position and code;
on any other code it fails with UnsupportedLanguage and the failure
detail lists the five valid codes in sorted order. -/
theorem lang_spec (ly : LunarYear) (h1 : 1 ≤ ly.year_in_cycle)
    (h2 : ly.year_in_cycle ≤ 60) (code : String) :
    (code ∈ SUPPORTED_LANGUAGES →
      ∃ e v, LUNAR_TABLE.lookup ly.year_in_cycle = some e ∧
        e.lookup code = some v ∧ lang ly code = .ok v) ∧
    (code ∉ SUPPORTED_LANGUAGES →
      lang ly code = .error (.unsupportedLanguage (unsupportedMsg code)) ∧
      unsupportedMsg code =
        "Language " ++ apos ++ code ++ apos ++ " not supported. Choose from: " ++
          "chi, eng, jap, kor, viet" ∧
      pySorted SUPPORTED_LANGUAGES = ["chi", "eng", "jap", "kor", "viet"]) := by
  constructor
  · intro hc
    rw [lang, LUNAR_TABLE_eq]
    exact table_lookup_ok _ h1 h2 code hc
  · intro hc
    have hcont : SUPPORTED_LANGUAGES.contains code = false := by
      simp [List.contains, hc]
    refine ⟨?_, rfl, sortedLangs_eq⟩
    simp [lang, langAt, hcont, hc]

/-- Witness for C4 at the resolver for 2024: the supported code chi
succeeds with the table pair, and the unsupported code bogus (the one
named by the spec) fails with UnsupportedLanguage. -/
theorem lang_spec_witness :
    (∃ e v, LUNAR_TABLE.lookup (41 : Int) = some e ∧ e.lookup "chi" = some v ∧
      lang ⟨2024, 41⟩ "chi" = .ok v) ∧
    lang ⟨2024, 41⟩ "bogus" = .error (.unsupportedLanguage (unsupportedMsg "bogus")) := by
  constructor
  · exact (lang_spec ⟨2024, 41⟩ (by norm_num) (by norm_num) "chi").1 (by decide)
  · exact ((lang_spec ⟨2024, 41⟩ (by norm_num) (by norm_num) "bogus").2 (by decide)).1

/-- Claim C9: a table lookup invoked directly with a position outside
1..60 (with a supported language code, so that the code check does not
fire first) is the defined failure KeyError of the missing-key dict
access, which the spec calls OutOfRange; it is distinguishable from
every other error kind of the engine; and such a call is unreachable
through the public resolve path, whose successful results always carry
a position in [1, 60]. -/
theorem lookup_defensive_spec (p : Int) (code : String) (hp : p < 1 ∨ 60 < p)
    (hcode : code ∈ SUPPORTED_LANGUAGES) :
    langAt LUNAR_TABLE p code = .error .keyError ∧
    (∀ m, LunarError.keyError ≠ .invalidYearFormat m ∧
      LunarError.keyError ≠ .yearOutOfRange m ∧
      LunarError.keyError ≠ .unsupportedLanguage m) ∧
    ∀ input a, resolve input = .ok a → 1 ≤ a.year_in_cycle ∧ a.year_in_cycle ≤ 60 := by
  refine ⟨?_, fun m => ⟨by simp, by simp, by simp⟩, ?_⟩
  · have hcont : SUPPORTED_LANGUAGES.contains code = true := by
      simpa [List.contains] using hcode
    rw [LUNAR_TABLE_eq]
    simp [langAt, hcont, hcode, table_lookup_none p hp]
  · intro input a ha
    unfold resolve at ha
    split at ha
    · exact Except.noConfusion ha
    · rename_i y hy
      split at ha
      · injection ha with ha
        subst ha
        constructor
        · show (1 : Int) ≤ (y - 4) % 60 + 1
          omega
        · show (y - 4) % 60 + 1 ≤ 60
          omega
      · exact Except.noConfusion ha

/-- Witness for C9 at position 61 and code chi. -/
theorem lookup_defensive_spec_witness :
    langAt LUNAR_TABLE 61 "chi" = .error .keyError :=
  (lookup_defensive_spec 61 "chi" (by norm_num) (by decide)).1

/-- Claim C10: running any sequence of lang calls on a resolver leaves
the class state (the shared table) and the resolver (its
gregorian_year and year_in_cycle attributes) unchanged, each single
call returns both unchanged, and a lang call issued after the sequence
returns the same result as the same call issued first. -/
theorem lang_frame_spec (st : ClassState) (ly : LunarYear) (codes : List String) :
    runLangCalls st ly codes = (st, ly) ∧
    (∀ code : String, (langS st ly code).2.1 = st ∧ (langS st ly code).2.2 = ly) ∧
    ∀ code : String,
      (langS (runLangCalls st ly codes).1 (runLangCalls st ly codes).2 code).1 =
        (langS st ly code).1 := by
  have hsingle : ∀ (st : ClassState) (ly : LunarYear) (code : String),
      (langS st ly code).2 = (st, ly) := by
    intro st ly code
    unfold langS
    split
    · split <;> rfl
    · rfl
  have hrun : runLangCalls st ly codes = (st, ly) := by
    induction codes with
    | nil => rfl
    | cons c cs ih =>
      rw [runLangCalls]
      simp only [hsingle]
      exact ih
  refine ⟨hrun, fun code => ⟨by rw [hsingle], by rw [hsingle]⟩, fun code => by rw [hrun]⟩

theorem digitsRevAux_eq (fuel : Nat) :
    ∀ n : Nat, n ≤ fuel → digitsRevAux fuel n = Nat.digits 10 n := by
  induction fuel with
  | zero =>
    intro n hn
    have : n = 0 := by omega
    subst this
    rw [Nat.digits_zero]
    rfl
  | succ f ih =>
    intro n hn
    cases n with
    | zero =>
      rw [Nat.digits_zero]
      rfl
    | succ m =>
      rw [digitsRevAux]
      rw [ih ((m + 1) / 10) (by omega)]
      rw [Nat.digits_def' (by norm_num : (1 : Nat) < 10) (Nat.succ_pos m)]

theorem digitsRev_eq (n : Nat) : digitsRev n = Nat.digits 10 n :=
  digitsRevAux_eq n n le_rfl

theorem digitChar_toNat {d : Nat} (h : d < 10) :
    (Char.ofNat (48 + d)).toNat = 48 + d := by
  interval_cases d <;> decide

theorem digitChar_isDigit {d : Nat} (h : d < 10) :
    (Char.ofNat (48 + d)).isDigit = true := by
  interval_cases d <;> decide

theorem digitChar_not_space {d : Nat} (h : d < 10) :
    isPySpace (Char.ofNat (48 + d)) = false := by
  interval_cases d <;> decide

theorem digitChar_ne_plus {d : Nat} (h : d < 10) : Char.ofNat (48 + d) ≠ '+' := by
  interval_cases d <;> decide

theorem digitChar_ne_minus {d : Nat} (h : d < 10) : Char.ofNat (48 + d) ≠ '-' := by
  interval_cases d <;> decide

theorem dropWhile_eq_self {α : Type} (p : α → Bool) :
    ∀ l : List α, (∀ a ∈ l, p a = false) → l.dropWhile p = l
  | [], _ => rfl
  | a :: as, h => by
    rw [List.dropWhile_cons]
    simp [h a (List.mem_cons_self a as)]

theorem pyStrip_eq_self (cs : List Char) (h : ∀ c ∈ cs, isPySpace c = false) :
    pyStrip (String.mk cs) = String.mk cs := by
  unfold pyStrip
  rw [show (String.mk cs).data = cs from rfl]
  rw [dropWhile_eq_self _ cs h]
  rw [dropWhile_eq_self _ cs.reverse (by
    intro a ha
    exact h a (List.mem_reverse.mp ha))]
  rw [List.reverse_reverse]

theorem digitsVal_map (es : List Nat) (hlt : ∀ d ∈ es, d < 10) :
    ∀ a : Nat,
      (es.map (fun d => Char.ofNat (48 + d))).foldl (fun n c => n * 10 + (c.toNat - 48)) a =
        a * 10 ^ es.length + Nat.ofDigits 10 es.reverse := by
  induction es with
  | nil => intro a; simp [Nat.ofDigits]
  | cons d ds ih =>
    intro a
    have hd : d < 10 := hlt d (List.mem_cons_self d ds)
    simp only [List.map_cons, List.foldl_cons, List.reverse_cons, List.length_cons]
    rw [ih (fun x hx => hlt x (List.mem_cons_of_mem _ hx))]
    rw [digitChar_toNat hd]
    rw [Nat.ofDigits_append]
    simp only [Nat.ofDigits_cons, Nat.ofDigits_nil, List.length_reverse]
    have h48 : 48 + d - 48 = d := by omega
    rw [h48]
    ring

theorem pyIntChars_all_digits (cs : List Char) (hne : cs ≠ [])
    (hdig : ∀ c ∈ cs, c.isDigit = true ∧ c ≠ '+' ∧ c ≠ '-') :
    pyIntChars cs = some ((digitsVal cs : Nat) : Int) := by
  obtain ⟨c, rest, rfl⟩ := List.exists_cons_of_ne_nil hne
  have hc := hdig c (List.mem_cons_self _ _)
  have hall : isDigits (c :: rest) = true := by
    simp only [isDigits, List.isEmpty_cons, Bool.not_false, Bool.true_and,
      List.all_eq_true]
    intro x hx
    exact (hdig x hx).1
  rw [pyIntChars]
  rw [if_neg hc.2.1, if_neg hc.2.2, if_pos hall]

theorem pyStrToInt_natDecimal (n : Nat) (hn : n ≠ 0) :
    pyStrToInt (String.mk (natDecimalChars n)) = some ((digitsVal (natDecimalChars n) : Nat) : Int) := by
  have hlt : ∀ d ∈ digitsRev n, d < 10 := by
    rw [digitsRev_eq]
    intro d hd
    exact Nat.digits_lt_base (by norm_num) hd
  have hmem : ∀ c ∈ natDecimalChars n, ∃ d, d < 10 ∧ c = Char.ofNat (48 + d) := by
    intro c hc
    simp only [natDecimalChars, List.mem_map, List.mem_reverse] at hc
    obtain ⟨d, hd, rfl⟩ := hc
    exact ⟨d, hlt d hd, rfl⟩
  have hdig : ∀ c ∈ natDecimalChars n, c.isDigit = true ∧ c ≠ '+' ∧ c ≠ '-' := by
    intro c hc
    obtain ⟨d, hd, rfl⟩ := hmem c hc
    exact ⟨digitChar_isDigit hd, digitChar_ne_plus hd, digitChar_ne_minus hd⟩
  have hne : natDecimalChars n ≠ [] := by
    simp only [natDecimalChars, ne_eq, List.map_eq_nil_iff, List.reverse_eq_nil_iff]
    rw [digitsRev_eq]
    exact Nat.digits_ne_nil_iff_ne_zero.mpr hn
  have hstrip : pyStrip (String.mk (natDecimalChars n)) = String.mk (natDecimalChars n) := by
    apply pyStrip_eq_self
    intro c hc
    obtain ⟨d, hd, rfl⟩ := hmem c hc
    exact digitChar_not_space hd
  rw [pyStrToInt, hstrip]
  rw [show (String.mk (natDecimalChars n)).data = natDecimalChars n from rfl]
  exact pyIntChars_all_digits _ hne hdig

theorem digitsVal_natDecimalChars (n : Nat) : digitsVal (natDecimalChars n) = n := by
  have hlt : ∀ d ∈ (digitsRev n).reverse, d < 10 := by
    intro d hd
    rw [List.mem_reverse, digitsRev_eq] at hd
    exact Nat.digits_lt_base (by norm_num) hd
  unfold digitsVal natDecimalChars
  rw [digitsVal_map ((digitsRev n).reverse) hlt 0]
  rw [List.reverse_reverse, digitsRev_eq]
  simp [Nat.ofDigits_digits]

theorem pyStrToInt_decimalRepr (y : Int) (h1 : 0 < y) :
    pyStrToInt (decimalRepr y) = some y := by
  have hy0 : ¬ y = 0 := by omega
  have hyneg : ¬ y < 0 := by omega
  rw [decimalRepr, if_neg hy0, if_neg hyneg]
  rw [pyStrToInt_natDecimal y.natAbs (by omega)]
  rw [digitsVal_natDecimalChars]
  congr 1
  omega

/-- Claim C8: for every integer y in [4, 9999], resolving the decimal
text representation of y succeeds and yields a resolver equal to the
one obtained from the integer y, hence with the same stored year, the
same cycle position, and the same result of every lang call. -/
theorem resolve_text_agrees_spec (y : Int) (h1 : 4 ≤ y) (h2 : y ≤ 9999) :
    pyStrToInt (decimalRepr y) = some y ∧
    resolve (.str (decimalRepr y)) = resolve (.int y) ∧
    (∃ a, resolve (.int y) = .ok a) ∧
    ∀ code : String,
      (resolve (.str (decimalRepr y))).map (fun ly => lang ly code) =
        (resolve (.int y)).map (fun ly => lang ly code) := by
  have hparse : pyStrToInt (decimalRepr y) = some y :=
    pyStrToInt_decimalRepr y (by omega)
  have hres : resolve (.str (decimalRepr y)) = resolve (.int y) := by
    simp only [resolve, coerceYear, hparse]
  exact ⟨hparse, hres, ⟨_, resolve_int_eq_ok y h1 h2⟩, fun code => by rw [hres]⟩

/-- Witness for C8 at the year named by the claim: the text 2024 is the
decimal representation of 2024 and resolves identically to the integer
2024. -/
theorem resolve_text_agrees_spec_witness :
    decimalRepr 2024 = "2024" ∧ resolve (.str "2024") = resolve (.int 2024) := by
  have h := (resolve_text_agrees_spec 2024 (by norm_num) (by norm_num)).2.1
  exact ⟨rfl, by rw [show ("2024" : String) = decimalRepr 2024 from rfl]; exact h⟩
